import Mathlib

/-!
# The PUB socket pattern of nanomsg (`src/protocols/pubsub/pub.c`)

A shallow embedding of the virtual functions of the PUB socket type.  The C
functions work on a process state reached through pointers; here that state is
an explicit `World` value passed in and out.  Everything `pub.c` calls but does
not define (the allocator, the distributor `nn_dist_*`) is a parameter of the
development, collected in `Ext`; every call into it is recorded in a trace, so
that "calls once, with these arguments" is a statement about the trace.
-/

namespace Pub

/-- Address of a C object. The null pointer is address `0`. -/
abbrev Ptr := Nat

/-- The null pointer. -/
def NULL : Ptr := 0

/-- A `struct nn_pipe *`. -/
abbrev Pipe := Nat

/-- A `struct nn_sockbase *`. -/
abbrev Sock := Nat

/-- A `struct nn_msg *`. -/
abbrev Msg := Nat

/-- Modelled from the spec: the error numbers of `errno.h` / `nn.h`, which are
not part of `pub.c`.  The contract distinguishes success (0) from "invalid
argument", "not supported" and "unknown option"; error numbers are positive
integers, and the functions return them negated. -/
structure Errno where
  EINVAL : Int
  ENOTSUP : Int
  ENOPROTOOPT : Int
  EINVAL_pos : 0 < EINVAL
  ENOTSUP_pos : 0 < ENOTSUP
  ENOPROTOOPT_pos : 0 < ENOPROTOOPT

/-- The values the three error numbers have on Linux. -/
def linuxErrno : Errno :=
  ⟨22, 95, 92, by decide, by decide, by decide⟩

/-- One call from `pub.c` into the allocator or the distributor, with its
arguments.  The socket in the `dist_*` calls says whose `outpipes` distributor
was passed. -/
inductive Call where
  | alloc (size : Nat) (result : Ptr)
  | free (ptr : Ptr)
  | dist_add (owner : Sock) (pipe : Pipe) (item : Ptr)
  | dist_rm (owner : Sock) (pipe : Pipe) (item : Ptr)
  | dist_out (owner : Sock) (pipe : Pipe) (item : Ptr)
  | dist_send (owner : Sock) (msg : Msg) (exclude : Ptr)
  deriving DecidableEq

/-- The functions and constants `pub.c` uses from `utils/alloc.h` and
`utils/dist.h`, over a distributor state `D` and an allocator state `H`.
`nn_alloc` returns the null pointer when it fails. -/
structure Ext (D H : Type) where
  sizeof_nn_pub_data : Nat
  nn_alloc : H → Nat → Ptr × H
  nn_free : H → Ptr → H
  nn_dist_add : D → Pipe → Ptr → D
  nn_dist_rm : D → Pipe → Ptr → D
  nn_dist_out : D → Pipe → Ptr → Int × D
  nn_dist_send : D → Msg → Ptr → Int × D

/-- The process state the PUB functions read and write. -/
structure World (D H : Type) where
  /-- State of the allocator. -/
  heap : H
  /-- The distributor `outpipes` embedded in each `struct nn_pub`. -/
  outpipes : Sock → D
  /-- The data slot of each pipe (`nn_pipe_setdata` / `nn_pipe_getdata`). -/
  pipedata : Pipe → Ptr
  /-- Objects of the caller reached through pointer arguments. -/
  mem : Ptr → Nat
  /-- The calls made so far, oldest first. -/
  trace : List Call

/-- How a C function ends: it returns a value, the process aborts, or control
runs off the end of a non-void function without a `return`. -/
inductive Result (σ α : Type) where
  | ret (value : α) (w : σ)
  | abort (w : σ)
  | undefined (w : σ)

/-- The state at the end of the call. -/
def Result.world {σ α : Type} : Result σ α → σ
  | .ret _ w => w
  | .abort w => w
  | .undefined w => w

/-- The value returned, if the call returned. -/
def Result.status {σ α : Type} : Result σ α → Option α
  | .ret a _ => some a
  | .abort _ => none
  | .undefined _ => none

/-- Whether the call returned to its caller. -/
def Result.returned {σ α : Type} : Result σ α → Bool
  | .ret _ _ => true
  | .abort _ => false
  | .undefined _ => false

/-- Whether the call aborted the process. -/
def Result.aborted {σ α : Type} : Result σ α → Bool
  | .ret _ _ => false
  | .abort _ => true
  | .undefined _ => false

section Externals

variable {D H : Type}

/-- Call of `nn_alloc (size, name)`, recorded in the trace. -/
def call_nn_alloc (X : Ext D H) (size : Nat) (w : World D H) : Ptr × World D H :=
  ((X.nn_alloc w.heap size).1,
   { w with heap := (X.nn_alloc w.heap size).2,
            trace := w.trace ++ [Call.alloc size (X.nn_alloc w.heap size).1] })

/-- Call of `nn_free (ptr)`, recorded in the trace. -/
def call_nn_free (X : Ext D H) (ptr : Ptr) (w : World D H) : World D H :=
  { w with heap := X.nn_free w.heap ptr, trace := w.trace ++ [Call.free ptr] }

/-- Call of `nn_dist_add (&pub->outpipes, pipe, item)`, recorded in the trace. -/
def call_nn_dist_add (X : Ext D H) (pub : Sock) (pipe : Pipe) (item : Ptr)
    (w : World D H) : World D H :=
  { w with outpipes := Function.update w.outpipes pub (X.nn_dist_add (w.outpipes pub) pipe item),
           trace := w.trace ++ [Call.dist_add pub pipe item] }

/-- Call of `nn_dist_rm (&pub->outpipes, pipe, item)`, recorded in the trace. -/
def call_nn_dist_rm (X : Ext D H) (pub : Sock) (pipe : Pipe) (item : Ptr)
    (w : World D H) : World D H :=
  { w with outpipes := Function.update w.outpipes pub (X.nn_dist_rm (w.outpipes pub) pipe item),
           trace := w.trace ++ [Call.dist_rm pub pipe item] }

/-- Call of `nn_dist_out (&pub->outpipes, pipe, item)`, recorded in the trace. -/
def call_nn_dist_out (X : Ext D H) (pub : Sock) (pipe : Pipe) (item : Ptr)
    (w : World D H) : Int × World D H :=
  ((X.nn_dist_out (w.outpipes pub) pipe item).1,
   { w with outpipes := Function.update w.outpipes pub (X.nn_dist_out (w.outpipes pub) pipe item).2,
            trace := w.trace ++ [Call.dist_out pub pipe item] })

/-- Call of `nn_dist_send (&pub->outpipes, msg, exclude)`, recorded in the trace. -/
def call_nn_dist_send (X : Ext D H) (pub : Sock) (msg : Msg) (exclude : Ptr)
    (w : World D H) : Int × World D H :=
  ((X.nn_dist_send (w.outpipes pub) msg exclude).1,
   { w with outpipes := Function.update w.outpipes pub (X.nn_dist_send (w.outpipes pub) msg exclude).2,
            trace := w.trace ++ [Call.dist_send pub msg exclude] })

/-- Modelled from the spec: `nn_pipe_setdata` of the pipe layer, absent from
`pub.c`.  The pipe handle carries one opaque per-pipe state blob that the
pattern attaches to it. -/
def nn_pipe_setdata (pipe : Pipe) (data : Ptr) (w : World D H) : World D H :=
  { w with pipedata := Function.update w.pipedata pipe data }

/-- Modelled from the spec: `nn_pipe_getdata` of the pipe layer, absent from
`pub.c`.  It reads back the blob attached to the pipe handle. -/
def nn_pipe_getdata (pipe : Pipe) (w : World D H) : Ptr :=
  w.pipedata pipe

/-- Modelled from the spec: the macro `nn_assert` of `utils/err.h`, absent from
`pub.c`.  A false condition is a fatal invariant break that aborts. -/
def nn_assert (cond : Bool) (w : World D H) : Result (World D H) Unit :=
  if cond then Result.ret () w else Result.abort w

/-- Modelled from the spec: the macro `alloc_assert` of `utils/err.h`, absent
from `pub.c`.  Allocation failure (a null pointer) is fatal: the process
aborts. -/
def alloc_assert (ptr : Ptr) (w : World D H) : Result (World D H) Unit :=
  if ptr = NULL then Result.abort w else Result.ret () w

/-- The branch hint `nn_slow` of `utils/fast.h`: the value of its argument. -/
def nn_slow (cond : Bool) : Bool := cond

/-- The macro `nn_cont (self, struct nn_pub, sockbase)`: `sockbase` is the first member
of `struct nn_pub`, so the socket and its base share one address. -/
def nn_cont (self : Sock) : Sock := self

/-- The address `&data->item`: `item` is the first and only member of
`struct nn_pub_data`, so it sits at the address of the blob. -/
def item_of (data : Ptr) : Ptr := data

end Externals

section Functions

variable {D H : Type}

/-- The function `nn_pub_add` (pub.c:106). -/
def nn_pub_add (X : Ext D H) (self : Sock) (pipe : Pipe) (w : World D H) :
    Result (World D H) Int :=
  let pub := nn_cont self
  let (data, w1) := call_nn_alloc X X.sizeof_nn_pub_data w
  match alloc_assert data w1 with
  | .abort w2 => .abort w2
  | .undefined w2 => .undefined w2
  | .ret _ w2 =>
    let w3 := call_nn_dist_add X pub pipe (item_of data) w2
    let w4 := nn_pipe_setdata pipe data w3
    .ret 0 w4

/-- The function `nn_pub_rm` (pub.c:121). -/
def nn_pub_rm (X : Ext D H) (self : Sock) (pipe : Pipe) (w : World D H) :
    Result (World D H) Unit :=
  let pub := nn_cont self
  let data := nn_pipe_getdata pipe w
  let w1 := call_nn_dist_rm X pub pipe (item_of data) w
  let w2 := call_nn_free X data w1
  .ret () w2

/-- The function `nn_pub_in` (pub.c:134): the body is `nn_assert (0)` and nothing else. -/
def nn_pub_in (_self : Sock) (_pipe : Pipe) (w : World D H) : Result (World D H) Int :=
  match nn_assert false w with
  | .abort w1 => .abort w1
  | .undefined w1 => .undefined w1
  | .ret _ w1 => .undefined w1

/-- The function `nn_pub_out` (pub.c:140). -/
def nn_pub_out (X : Ext D H) (self : Sock) (pipe : Pipe) (w : World D H) :
    Result (World D H) Int :=
  let pub := nn_cont self
  let data := nn_pipe_getdata pipe w
  let (rc, w1) := call_nn_dist_out X pub pipe (item_of data) w
  .ret rc w1

/-- The function `nn_pub_send` (pub.c:151). -/
def nn_pub_send (X : Ext D H) (self : Sock) (msg : Msg) (w : World D H) :
    Result (World D H) Int :=
  let (rc, w1) := call_nn_dist_send X (nn_cont self) msg NULL w
  .ret rc w1

/-- The function `nn_pub_recv` (pub.c:157). -/
def nn_pub_recv (E : Errno) (_self : Sock) (_msg : Msg) (w : World D H) :
    Result (World D H) Int :=
  .ret (-E.ENOTSUP) w

/-- The function `nn_pub_setopt` (pub.c:162). -/
def nn_pub_setopt (E : Errno) (_self : Sock) (_level _option : Int) (_optval : Ptr)
    (_optvallen : Nat) (w : World D H) : Result (World D H) Int :=
  .ret (-E.ENOPROTOOPT) w

/-- The function `nn_pub_getopt` (pub.c:168). -/
def nn_pub_getopt (E : Errno) (_self : Sock) (_level _option : Int) (_optval : Ptr)
    (_optvallen : Ptr) (w : World D H) : Result (World D H) Int :=
  .ret (-E.ENOPROTOOPT) w

/-- The function `nn_pub_sethdr` (pub.c:174); `hdrlen` is a `size_t`. -/
def nn_pub_sethdr (E : Errno) (_msg : Msg) (_hdr : Ptr) (hdrlen : Nat) (w : World D H) :
    Result (World D H) Int :=
  if nn_slow (hdrlen != 0) then .ret (-E.EINVAL) w else .ret 0 w

/-- The function `nn_pub_gethdr` (pub.c:182); `hdrlen` points to the caller's `size_t`. -/
def nn_pub_gethdr (_msg : Msg) (_hdr : Ptr) (hdrlen : Ptr) (w : World D H) :
    Result (World D H) Int :=
  let w1 := { w with mem := Function.update w.mem hdrlen 0 }
  .ret 0 w1

end Functions

section Events

variable {D H : Type}

/-- One call of the socket shell into the PUB virtual-function table, with its
arguments other than the socket. -/
inductive Event where
  | add (pipe : Pipe)
  | rm (pipe : Pipe)
  | in_ (pipe : Pipe)
  | out (pipe : Pipe)
  | send (msg : Msg)
  | recv (msg : Msg)
  | setopt (level option : Int) (optval : Ptr) (optvallen : Nat)
  | getopt (level option : Int) (optval optvallen : Ptr)
  | sethdr (msg : Msg) (hdr : Ptr) (hdrlen : Nat)
  | gethdr (msg : Msg) (hdr hdrlen : Ptr)
  deriving DecidableEq

/-- Forget the value a call returned. -/
def Result.discard {σ α : Type} : Result σ α → Result σ Unit
  | .ret _ w => .ret () w
  | .abort w => .abort w
  | .undefined w => .undefined w

/-- Dispatch of one event on the socket `self`. -/
def step (X : Ext D H) (E : Errno) (self : Sock) (ev : Event) (w : World D H) :
    Result (World D H) Unit :=
  match ev with
  | .add pipe => (nn_pub_add X self pipe w).discard
  | .rm pipe => (nn_pub_rm X self pipe w).discard
  | .in_ pipe => (nn_pub_in self pipe w).discard
  | .out pipe => (nn_pub_out X self pipe w).discard
  | .send msg => (nn_pub_send X self msg w).discard
  | .recv msg => (nn_pub_recv E self msg w).discard
  | .setopt level option optval optvallen =>
      (nn_pub_setopt E self level option optval optvallen w).discard
  | .getopt level option optval optvallen =>
      (nn_pub_getopt E self level option optval optvallen w).discard
  | .sethdr msg hdr hdrlen => (nn_pub_sethdr E msg hdr hdrlen w).discard
  | .gethdr msg hdr hdrlen => (nn_pub_gethdr msg hdr hdrlen w).discard

/-- A sequence of events on the socket `self`, one after the other; it stops at
the first call that does not return. -/
def run (X : Ext D H) (E : Errno) (self : Sock) : List Event → World D H →
    Result (World D H) Unit
  | [], w => .ret () w
  | ev :: evs, w =>
    match step X E self ev w with
    | .ret _ w1 => run X E self evs w1
    | .abort w1 => .abort w1
    | .undefined w1 => .undefined w1

/-- Reading one call of the trace: a registration of `pipe` with the
distributor of `owner` replaces the item remembered so far. -/
def noteAdd (owner : Sock) (pipe : Pipe) (acc : Option Ptr) : Call → Option Ptr
  | .dist_add o p item => if o = owner ∧ p = pipe then some item else acc
  | _ => acc

/-- The item of the most recent `nn_dist_add` call that registered `pipe` with
the distributor of `owner`, if the trace has one. -/
def lastAdded (owner : Sock) (pipe : Pipe) (trace : List Call) : Option Ptr :=
  trace.foldl (noteAdd owner pipe) none

/-- The invariant of the data slots: the slot of every pipe holds the item of
the most recent registration of that pipe with the distributor of `self`. -/
def SlotInv (self : Sock) (w : World D H) : Prop :=
  ∀ (p : Pipe) (it : Ptr), lastAdded self p w.trace = some it → w.pipedata p = it

end Events

section Samples

/-- Modelled from the spec: a small distributor in the sense of the spec's
section 4.1, used to evaluate the functions on concrete inputs.  Its state is
the attached set and the writable set; mark-writable reports 1 when the
writable set was empty, broadcast reports success. -/
def sampleExt : Ext (List Pipe × List Pipe) Nat where
  sizeof_nn_pub_data := 16
  nn_alloc := fun h _ => (h + 1, h + 1)
  nn_free := fun h _ => h
  nn_dist_add := fun d pipe _ => (pipe :: d.1, d.2)
  nn_dist_rm := fun d pipe _ => (d.1.erase pipe, d.2.erase pipe)
  nn_dist_out := fun d pipe _ => (if d.2 = [] then 1 else 0, (d.1, pipe :: d.2))
  nn_dist_send := fun d _ _ => (0, d)

/-- A process state with nothing allocated, no pipe attached and no call made
yet. -/
def sampleWorld : World (List Pipe × List Pipe) Nat where
  heap := 0
  outpipes := fun _ => ([], [])
  pipedata := fun _ => NULL
  mem := fun _ => 0
  trace := []

/-- Two pipes are attached to a socket, with a broadcast in between, and the
first one becomes writable. -/
def sampleEvents : List Event :=
  [Event.add 7, Event.send 3, Event.add 8, Event.out 7]

/-- A pipe is detached from a socket and attached to it again. -/
def reattachEvents : List Event :=
  [Event.rm 7, Event.add 7]

end Samples

section Contract

variable {D H : Type}

/-- C1: whatever sequence of events the socket went through before, and for
every message argument, `nn_pub_recv` returns `-ENOTSUP`, which is not the
success status 0, and leaves the state as it found it. -/
theorem nn_pub_recv_not_supported (X : Ext D H) (E : Errno) (self : Sock) (msg : Msg)
    (evs : List Event) (w0 : World D H) :
    nn_pub_recv E self msg (run X E self evs w0).world
        = Result.ret (-E.ENOTSUP) (run X E self evs w0).world
      ∧ (nn_pub_recv E self msg (run X E self evs w0).world).status ≠ some 0
      ∧ (∀ w : World D H, nn_pub_recv E self msg w = Result.ret (-E.ENOTSUP) w)
      ∧ -E.ENOTSUP ≠ 0 := by
  have hpos := E.ENOTSUP_pos
  refine ⟨rfl, ?_, fun _ => rfl, by omega⟩
  simp only [nn_pub_recv, Result.status, ne_eq, Option.some.injEq]
  omega

/-- C2: `nn_pub_sethdr` returns `-EINVAL` exactly when `hdrlen > 0`, returns 0
when `hdrlen = 0`, and in both cases returns without changing the state. -/
theorem nn_pub_sethdr_status (E : Errno) (msg : Msg) (hdr : Ptr) (hdrlen : Nat)
    (w : World D H) :
    ((nn_pub_sethdr E msg hdr hdrlen w).status = some (-E.EINVAL) ↔ 0 < hdrlen)
      ∧ ((nn_pub_sethdr E msg hdr hdrlen w).status = some 0 ↔ hdrlen = 0)
      ∧ (nn_pub_sethdr E msg hdr 0 w).status = some 0
      ∧ (nn_pub_sethdr E msg hdr hdrlen w).world = w
      ∧ (nn_pub_sethdr E msg hdr hdrlen w).returned = true := by
  have hpos := E.EINVAL_pos
  by_cases h : hdrlen = 0
  · subst h
    simp only [nn_pub_sethdr, nn_slow, bne_self_eq_false, Bool.false_eq_true, if_false,
      Result.status, Result.world, Result.returned, Option.some.injEq, lt_self_iff_false,
      iff_false, and_self, and_true, true_iff]
    omega
  · have hb : (hdrlen != 0) = true := by simpa using h
    simp only [nn_pub_sethdr, nn_slow, hb, if_true, bne_self_eq_false, Bool.false_eq_true,
      if_false, Result.status, Result.world, Result.returned, Option.some.injEq, true_iff,
      and_true, h, iff_false]
    refine ⟨by omega, by omega⟩

/-- C3: `nn_pub_gethdr` returns 0 and sets the caller's header-length variable
to 0 whatever it held before; no other object of the caller (the header buffer
among them) is written, and nothing else of the state changes. -/
theorem nn_pub_gethdr_zero_length (msg : Msg) (hdr hdrlen : Ptr) (w : World D H) :
    (nn_pub_gethdr msg hdr hdrlen w).status = some 0
      ∧ (nn_pub_gethdr msg hdr hdrlen w).world.mem hdrlen = 0
      ∧ (∀ a : Ptr, a ≠ hdrlen → (nn_pub_gethdr msg hdr hdrlen w).world.mem a = w.mem a)
      ∧ (nn_pub_gethdr msg hdr hdrlen w).world.trace = w.trace
      ∧ (nn_pub_gethdr msg hdr hdrlen w).world.pipedata = w.pipedata
      ∧ (nn_pub_gethdr msg hdr hdrlen w).world.outpipes = w.outpipes := by
  refine ⟨rfl, ?_, ?_, rfl, rfl, rfl⟩
  · simp [nn_pub_gethdr, Result.world]
  · intro a ha
    simp [nn_pub_gethdr, Result.world, Function.update_noteq ha]

/-- C4: for every state, level, option name, value and length, `nn_pub_setopt`
and `nn_pub_getopt` both return `-ENOPROTOOPT`, which is not success, and leave
the whole state (the caller's value and length objects included) unchanged. -/
theorem nn_pub_options_unknown (E : Errno) (self : Sock) (level option : Int)
    (optval : Ptr) (optvallen : Nat) (optvallenp : Ptr) (w : World D H) :
    nn_pub_setopt E self level option optval optvallen w = Result.ret (-E.ENOPROTOOPT) w
      ∧ nn_pub_getopt E self level option optval optvallenp w = Result.ret (-E.ENOPROTOOPT) w
      ∧ (nn_pub_getopt E self level option optval optvallenp w).world.mem = w.mem
      ∧ -E.ENOPROTOOPT ≠ 0 := by
  have hpos := E.ENOPROTOOPT_pos
  exact ⟨rfl, rfl, rfl, by omega⟩

/-- C5: `nn_pub_send` makes exactly one call, `nn_dist_send` on the socket's
own distributor with the message and a null `exclude`; it returns that call's
status, the socket's distributor becomes what the call left, and nothing else
changes. -/
theorem nn_pub_send_delegates (X : Ext D H) (self : Sock) (msg : Msg) (w : World D H) :
    (nn_pub_send X self msg w).status = some (X.nn_dist_send (w.outpipes self) msg NULL).1
      ∧ (nn_pub_send X self msg w).world.trace = w.trace ++ [Call.dist_send self msg NULL]
      ∧ (nn_pub_send X self msg w).world.outpipes self
          = (X.nn_dist_send (w.outpipes self) msg NULL).2
      ∧ (∀ s : Sock, s ≠ self → (nn_pub_send X self msg w).world.outpipes s = w.outpipes s)
      ∧ (nn_pub_send X self msg w).world.pipedata = w.pipedata
      ∧ (nn_pub_send X self msg w).world.heap = w.heap
      ∧ (nn_pub_send X self msg w).world.mem = w.mem := by
  refine ⟨rfl, rfl, ?_, ?_, rfl, rfl, rfl⟩
  · simp [nn_pub_send, call_nn_dist_send, nn_cont, Result.world]
  · intro s hs
    simp [nn_pub_send, call_nn_dist_send, nn_cont, Result.world, Function.update_noteq hs]

/-- C6: `nn_pub_out` makes exactly one call, `nn_dist_out` on the socket's own
distributor with the pipe and the item stored in the pipe's data slot; it
returns that call's status unchanged. -/
theorem nn_pub_out_forwards (X : Ext D H) (self : Sock) (pipe : Pipe) (w : World D H) :
    (nn_pub_out X self pipe w).status
        = some (X.nn_dist_out (w.outpipes self) pipe (w.pipedata pipe)).1
      ∧ (nn_pub_out X self pipe w).world.trace
          = w.trace ++ [Call.dist_out self pipe (w.pipedata pipe)]
      ∧ (nn_pub_out X self pipe w).world.outpipes self
          = (X.nn_dist_out (w.outpipes self) pipe (w.pipedata pipe)).2
      ∧ (∀ s : Sock, s ≠ self → (nn_pub_out X self pipe w).world.outpipes s = w.outpipes s)
      ∧ (nn_pub_out X self pipe w).world.pipedata = w.pipedata
      ∧ (nn_pub_out X self pipe w).world.heap = w.heap := by
  refine ⟨rfl, rfl, ?_, ?_, rfl, rfl⟩
  · simp [nn_pub_out, call_nn_dist_out, nn_cont, nn_pipe_getdata, item_of, Result.world]
  · intro s hs
    simp [nn_pub_out, call_nn_dist_out, nn_cont, nn_pipe_getdata, item_of, Result.world,
      Function.update_noteq hs]

/-- What a call of `nn_pub_add` does when its allocation succeeds. -/
theorem nn_pub_add_of_alloc (X : Ext D H) (self : Sock) (pipe : Pipe) (w : World D H)
    (halloc : (X.nn_alloc w.heap X.sizeof_nn_pub_data).1 ≠ NULL) :
    (nn_pub_add X self pipe w).status = some 0
      ∧ (nn_pub_add X self pipe w).world.trace
          = w.trace ++ [Call.alloc X.sizeof_nn_pub_data (X.nn_alloc w.heap X.sizeof_nn_pub_data).1,
                        Call.dist_add self pipe (X.nn_alloc w.heap X.sizeof_nn_pub_data).1]
      ∧ (nn_pub_add X self pipe w).world.pipedata pipe
          = (X.nn_alloc w.heap X.sizeof_nn_pub_data).1
      ∧ (∀ p : Pipe, p ≠ pipe → (nn_pub_add X self pipe w).world.pipedata p = w.pipedata p)
      ∧ (nn_pub_add X self pipe w).world.outpipes self
          = X.nn_dist_add (w.outpipes self) pipe (X.nn_alloc w.heap X.sizeof_nn_pub_data).1
      ∧ (∀ s : Sock, s ≠ self → (nn_pub_add X self pipe w).world.outpipes s = w.outpipes s) := by
  refine ⟨?_, ?_, ?_, ?_, ?_, ?_⟩
  · simp [nn_pub_add, call_nn_alloc, alloc_assert, halloc, Result.status]
  · simp [nn_pub_add, call_nn_alloc, alloc_assert, halloc, Result.world, call_nn_dist_add,
      nn_pipe_setdata, nn_cont, item_of]
  · simp [nn_pub_add, call_nn_alloc, alloc_assert, halloc, Result.world, call_nn_dist_add,
      nn_pipe_setdata, nn_cont, item_of]
  · intro p hp
    simp [nn_pub_add, call_nn_alloc, alloc_assert, halloc, Result.world, call_nn_dist_add,
      nn_pipe_setdata, nn_cont, item_of, Function.update_noteq hp]
  · simp [nn_pub_add, call_nn_alloc, alloc_assert, halloc, Result.world, call_nn_dist_add,
      nn_pipe_setdata, nn_cont, item_of]
  · intro s hs
    simp [nn_pub_add, call_nn_alloc, alloc_assert, halloc, Result.world, call_nn_dist_add,
      nn_pipe_setdata, nn_cont, item_of, Function.update_noteq hs]

/-- C7: whenever the allocation of the per-pipe state succeeds, `nn_pub_add`
returns 0; besides the allocation its only call is one `nn_dist_add` on the
socket's own distributor with the pipe and the freshly allocated item, and the
allocated state ends up in the pipe's data slot. -/
theorem nn_pub_add_accepts (X : Ext D H) (self : Sock) (pipe : Pipe) (w : World D H)
    (halloc : (X.nn_alloc w.heap X.sizeof_nn_pub_data).1 ≠ NULL) :
    (nn_pub_add X self pipe w).status = some 0
      ∧ (nn_pub_add X self pipe w).world.trace
          = w.trace ++ [Call.alloc X.sizeof_nn_pub_data (X.nn_alloc w.heap X.sizeof_nn_pub_data).1,
                        Call.dist_add self pipe (X.nn_alloc w.heap X.sizeof_nn_pub_data).1]
      ∧ (nn_pub_add X self pipe w).world.pipedata pipe
          = (X.nn_alloc w.heap X.sizeof_nn_pub_data).1
      ∧ (∀ p : Pipe, p ≠ pipe → (nn_pub_add X self pipe w).world.pipedata p = w.pipedata p)
      ∧ (nn_pub_add X self pipe w).world.outpipes self
          = X.nn_dist_add (w.outpipes self) pipe (X.nn_alloc w.heap X.sizeof_nn_pub_data).1
      ∧ (∀ s : Sock, s ≠ self → (nn_pub_add X self pipe w).world.outpipes s = w.outpipes s) :=
  nn_pub_add_of_alloc X self pipe w halloc

/-- Instance of C7: with the sample allocator, attaching pipe 7 to socket 1 in
the empty state returns 0 after allocating item 1 and registering it. -/
theorem nn_pub_add_accepts_witness :
    (sampleExt.nn_alloc sampleWorld.heap sampleExt.sizeof_nn_pub_data).1 ≠ NULL
      ∧ (nn_pub_add sampleExt 1 7 sampleWorld).status = some 0
      ∧ (nn_pub_add sampleExt 1 7 sampleWorld).world.trace
          = [Call.alloc 16 1, Call.dist_add 1 7 1]
      ∧ (nn_pub_add sampleExt 1 7 sampleWorld).world.pipedata 7 = 1 :=
  have h := nn_pub_add_accepts sampleExt 1 7 sampleWorld (by decide)
  ⟨by decide, h.1, h.2.1, h.2.2.1⟩

/-- C8: every call of `nn_pub_in` ends in the abort raised by `nn_assert (0)`:
it returns no status, and the state at the abort is the state at entry. -/
theorem nn_pub_in_aborts (self : Sock) (pipe : Pipe) (w : World D H) :
    nn_pub_in self pipe w = Result.abort w
      ∧ (nn_pub_in self pipe w).status = none
      ∧ (nn_pub_in self pipe w).returned = false
      ∧ (nn_pub_in self pipe w).aborted = true :=
  ⟨rfl, rfl, rfl, rfl⟩

/-- C9 as stated fails: on socket 1 in the sample state, `nn_pub_recv` does not
abort; it returns -95 (`-ENOTSUP` on Linux) to its caller. -/
theorem nn_pub_recv_abort_counterexample :
    (nn_pub_recv linuxErrno 1 5 sampleWorld).aborted = false
      ∧ (nn_pub_recv linuxErrno 1 5 sampleWorld).returned = true
      ∧ (nn_pub_recv linuxErrno 1 5 sampleWorld).status = some (-95) :=
  ⟨rfl, rfl, rfl⟩

/-- C9 amended: receive on a PUB socket is an unsupported operation, not a
fatal invariant break: `nn_pub_recv` never aborts, it returns `-ENOTSUP` to
its caller as an ordinary result; the call that aborts is `nn_pub_in`. -/
theorem nn_pub_recv_is_ordinary_result (E : Errno) (self : Sock) (msg : Msg) (pipe : Pipe)
    (w : World D H) :
    (nn_pub_recv E self msg w).aborted = false
      ∧ (nn_pub_recv E self msg w).returned = true
      ∧ (nn_pub_recv E self msg w).status = some (-E.ENOTSUP)
      ∧ (nn_pub_recv E self msg w).world = w
      ∧ (nn_pub_in self pipe w).aborted = true :=
  ⟨rfl, rfl, rfl, rfl, rfl⟩

end Contract

section Lifecycle

variable {D H : Type}

theorem lastAdded_snoc (owner : Sock) (pipe : Pipe) (t : List Call) (c : Call) :
    lastAdded owner pipe (t ++ [c]) = noteAdd owner pipe (lastAdded owner pipe t) c := by
  simp [lastAdded, List.foldl_append]

theorem lastAdded_snoc2 (owner : Sock) (pipe : Pipe) (t : List Call) (c1 c2 : Call) :
    lastAdded owner pipe (t ++ [c1, c2])
      = noteAdd owner pipe (noteAdd owner pipe (lastAdded owner pipe t) c1) c2 := by
  simp [lastAdded, List.foldl_append]

theorem discard_world {σ α : Type} (r : Result σ α) : r.discard.world = r.world := by
  cases r <;> rfl

theorem slotInv_of_same (self : Sock) (w w1 : World D H) (ht : w1.trace = w.trace)
    (hp : w1.pipedata = w.pipedata) (h : SlotInv self w) : SlotInv self w1 := by
  intro p it hl
  rw [ht] at hl
  rw [hp]
  exact h p it hl

theorem nn_pub_add_slotInv (X : Ext D H) (self : Sock) (pipe : Pipe) (w : World D H)
    (h : SlotInv self w) : SlotInv self (nn_pub_add X self pipe w).world := by
  intro p it
  by_cases ha : (X.nn_alloc w.heap X.sizeof_nn_pub_data).1 = NULL
  · simp only [nn_pub_add, call_nn_alloc, alloc_assert, ha, if_true, Result.world,
      lastAdded_snoc, noteAdd]
    exact h p it
  · have hacc := nn_pub_add_of_alloc X self pipe w ha
    rw [hacc.2.1, lastAdded_snoc2]
    by_cases hp : p = pipe
    · subst hp
      simp only [noteAdd, and_self, if_true, Option.some.injEq]
      intro hit
      rw [hacc.2.2.1, hit]
    · have hp2 : ¬ (pipe = p) := fun hc => hp hc.symm
      simp only [noteAdd, hp2, and_false, if_false]
      intro hl
      rw [hacc.2.2.2.1 p hp]
      exact h p it hl

theorem step_slotInv (X : Ext D H) (E : Errno) (self : Sock) (ev : Event) (w : World D H)
    (h : SlotInv self w) : SlotInv self (step X E self ev w).world := by
  cases ev with
  | add pipe =>
    simp only [step, discard_world]
    exact nn_pub_add_slotInv X self pipe w h
  | rm pipe =>
    intro p it
    simp only [step]
    rw [discard_world]
    simp only [nn_pub_rm, call_nn_free, call_nn_dist_rm, Result.world,
      List.append_assoc, List.singleton_append, lastAdded_snoc2, noteAdd]
    exact h p it
  | in_ pipe => exact h
  | out pipe =>
    intro p it
    simp only [step]
    rw [discard_world]
    simp only [nn_pub_out, call_nn_dist_out, Result.world, lastAdded_snoc, noteAdd]
    exact h p it
  | send msg =>
    intro p it
    simp only [step]
    rw [discard_world]
    simp only [nn_pub_send, call_nn_dist_send, Result.world, lastAdded_snoc, noteAdd]
    exact h p it
  | recv msg => exact h
  | setopt level option optval optvallen => exact h
  | getopt level option optval optvallen => exact h
  | sethdr msg hdr hdrlen =>
    refine slotInv_of_same self w _ ?_ ?_ h <;>
      (simp only [step]; rw [discard_world]; simp only [nn_pub_sethdr]; split <;> rfl)
  | gethdr msg hdr hdrlen => exact h

theorem run_slotInv (X : Ext D H) (E : Errno) (self : Sock) (evs : List Event) :
    ∀ w : World D H, SlotInv self w → SlotInv self (run X E self evs w).world := by
  induction evs with
  | nil => intro w h; exact h
  | cons ev evs ih =>
    intro w h
    have hs := step_slotInv X E self ev w h
    cases hst : step X E self ev w with
    | ret u w1 =>
      rw [hst] at hs
      simp only [run, hst]
      exact ih w1 hs
    | abort w1 =>
      rw [hst] at hs
      simp only [run, hst]
      exact hs
    | undefined w1 =>
      rw [hst] at hs
      simp only [run, hst]
      exact hs

/-- C10 as stated fails: pipe 7 is attached to socket 1 and its attach
registers item 1; the later events detach it and attach it again.  After
them `nn_pub_out` and `nn_pub_rm` hand item 2 to the distributor, the item of
the second attach, and not item 1. -/
theorem first_attach_item_counterexample :
    (nn_pub_add sampleExt 1 7 sampleWorld).status = some 0
      ∧ (nn_pub_add sampleExt 1 7 sampleWorld).world.trace
          = [Call.alloc 16 1, Call.dist_add 1 7 1]
      ∧ (run sampleExt linuxErrno 1 reattachEvents
            (nn_pub_add sampleExt 1 7 sampleWorld).world).returned = true
      ∧ (nn_pub_out sampleExt 1 7 (run sampleExt linuxErrno 1 reattachEvents
            (nn_pub_add sampleExt 1 7 sampleWorld).world).world).world.trace
          = (run sampleExt linuxErrno 1 reattachEvents
              (nn_pub_add sampleExt 1 7 sampleWorld).world).world.trace
              ++ [Call.dist_out 1 7 2]
      ∧ (nn_pub_out sampleExt 1 7 (run sampleExt linuxErrno 1 reattachEvents
            (nn_pub_add sampleExt 1 7 sampleWorld).world).world).world.trace
          ≠ (run sampleExt linuxErrno 1 reattachEvents
              (nn_pub_add sampleExt 1 7 sampleWorld).world).world.trace
              ++ [Call.dist_out 1 7 1]
      ∧ (nn_pub_rm sampleExt 1 7 (run sampleExt linuxErrno 1 reattachEvents
            (nn_pub_add sampleExt 1 7 sampleWorld).world).world).world.trace
          = (run sampleExt linuxErrno 1 reattachEvents
              (nn_pub_add sampleExt 1 7 sampleWorld).world).world.trace
              ++ [Call.dist_rm 1 7 2, Call.free 2]
      ∧ (nn_pub_rm sampleExt 1 7 (run sampleExt linuxErrno 1 reattachEvents
            (nn_pub_add sampleExt 1 7 sampleWorld).world).world).world.trace
          ≠ (run sampleExt linuxErrno 1 reattachEvents
              (nn_pub_add sampleExt 1 7 sampleWorld).world).world.trace
              ++ [Call.dist_rm 1 7 1, Call.free 1] := by
  refine ⟨?_, ?_, ?_, ?_, ?_, ?_, ?_⟩ <;> decide

/-- C10 amended: start from a state with no call made yet and let any sequence
of events happen on the socket.  If `it` is the item that the most recent
attach of the pipe registered with `nn_dist_add`, then the pipe's data slot
holds `it`.  `nn_pub_out` makes one call, `nn_dist_out` on the socket's own
distributor with `it`, returns its status and leaves the distributor as that
call left it.  `nn_pub_rm` makes exactly two calls, `nn_dist_rm` on the
socket's own distributor with `it` and then `nn_free` of that state: the
distributor is what `nn_dist_rm` left, the allocator what `nn_free` left, and
no other distributor and no data slot changes. -/
theorem pipe_item_preserved (X : Ext D H) (E : Errno) (self : Sock) (evs : List Event)
    (w0 : World D H) (pipe : Pipe) (it : Ptr) (hstart : w0.trace = [])
    (hadd : lastAdded self pipe (run X E self evs w0).world.trace = some it) :
    (run X E self evs w0).world.pipedata pipe = it
      ∧ (nn_pub_out X self pipe (run X E self evs w0).world).world.trace
          = (run X E self evs w0).world.trace ++ [Call.dist_out self pipe it]
      ∧ (nn_pub_out X self pipe (run X E self evs w0).world).status
          = some (X.nn_dist_out ((run X E self evs w0).world.outpipes self) pipe it).1
      ∧ (nn_pub_out X self pipe (run X E self evs w0).world).world.outpipes self
          = (X.nn_dist_out ((run X E self evs w0).world.outpipes self) pipe it).2
      ∧ (nn_pub_rm X self pipe (run X E self evs w0).world).world.trace
          = (run X E self evs w0).world.trace ++ [Call.dist_rm self pipe it, Call.free it]
      ∧ (nn_pub_rm X self pipe (run X E self evs w0).world).returned = true
      ∧ (nn_pub_rm X self pipe (run X E self evs w0).world).world.outpipes self
          = X.nn_dist_rm ((run X E self evs w0).world.outpipes self) pipe it
      ∧ (nn_pub_rm X self pipe (run X E self evs w0).world).world.heap
          = X.nn_free (run X E self evs w0).world.heap it
      ∧ (∀ s : Sock, s ≠ self →
          (nn_pub_rm X self pipe (run X E self evs w0).world).world.outpipes s
            = (run X E self evs w0).world.outpipes s)
      ∧ (nn_pub_rm X self pipe (run X E self evs w0).world).world.pipedata
          = (run X E self evs w0).world.pipedata := by
  have h0 : SlotInv self w0 := by
    intro p i hl
    rw [hstart] at hl
    simp [lastAdded] at hl
  have hslot := run_slotInv X E self evs w0 h0 pipe it hadd
  generalize (run X E self evs w0).world = w at hslot
  subst hslot
  refine ⟨rfl, rfl, rfl, ?_, ?_, rfl, ?_, rfl, ?_, rfl⟩
  · simp [nn_pub_out, call_nn_dist_out, nn_cont, nn_pipe_getdata, item_of, Result.world]
  · simp [nn_pub_rm, call_nn_dist_rm, call_nn_free, nn_cont, nn_pipe_getdata, item_of,
      Result.world]
  · simp [nn_pub_rm, call_nn_dist_rm, call_nn_free, nn_cont, nn_pipe_getdata, item_of,
      Result.world]
  · intro s hs
    simp [nn_pub_rm, call_nn_dist_rm, call_nn_free, nn_cont, nn_pipe_getdata, item_of,
      Result.world, Function.update_noteq hs]

/-- Instance of C10 amended: after pipes 7 and 8 were attached to socket 1, a
message was sent and pipe 7 became writable, pipe 7 still carries item 1, the
item its attach registered; detaching it removes pipe 7 from the attached and
the writable set of the sample distributor. -/
theorem pipe_item_preserved_witness :
    sampleWorld.trace = []
      ∧ lastAdded 1 7 (run sampleExt linuxErrno 1 sampleEvents sampleWorld).world.trace = some 1
      ∧ (run sampleExt linuxErrno 1 sampleEvents sampleWorld).world.pipedata 7 = 1
      ∧ (nn_pub_rm sampleExt 1 7 (run sampleExt linuxErrno 1 sampleEvents sampleWorld).world).world.trace
          = (run sampleExt linuxErrno 1 sampleEvents sampleWorld).world.trace
              ++ [Call.dist_rm 1 7 1, Call.free 1]
      ∧ (nn_pub_rm sampleExt 1 7 (run sampleExt linuxErrno 1 sampleEvents sampleWorld).world).world.outpipes 1
          = sampleExt.nn_dist_rm
              ((run sampleExt linuxErrno 1 sampleEvents sampleWorld).world.outpipes 1) 7 1
      ∧ (nn_pub_rm sampleExt 1 7 (run sampleExt linuxErrno 1 sampleEvents sampleWorld).world).world.outpipes 1
          = ([8], []) :=
  have h := pipe_item_preserved sampleExt linuxErrno 1 sampleEvents sampleWorld 7 1 rfl
    (by decide)
  ⟨rfl, by decide, h.1, h.2.2.2.2.1, h.2.2.2.2.2.2.1, by decide⟩

end Lifecycle

end Pub
